import Mathlib

/-!
Verification of `src/download-icons.js` (ayushk-1801/assets).

Shallow embedding. The network is modelled as a pure oracle
`Net : String → Option Response` (`none` = transport-level error, e.g. DNS
failure or connection reset; `some r` = an HTTP response). The filesystem is
an association list from paths to file contents; `writeFileSync` conses (the
most recent binding shadows earlier ones, which models overwriting).

The JS `download` follows redirects recursively with no depth limit, so it
need not terminate; it is embedded with an explicit fuel parameter:
`downloadFuel net fuel url = none` means the recursion did not finish within
`fuel` HTTP round trips (in particular a redirect loop yields `none` at every
fuel). `some DlResult.err` is a rejected promise (non-200 final status or
transport error), `some (DlResult.ok body)` a resolved one.

`downloadIcon` and the driver loop of `main` are embedded with the global
`ICONS` catalog passed as an explicit parameter; besides the boolean result
and the updated filesystem they record the `console.log` lines they print
and the URLs they pass to `download`, so that claims about progress output
and about which network requests are issued can be stated.
-/

/-- An HTTP response as seen by the `https.get` callback: status code, the
optional `Location` header, and the full accumulated body. -/
structure Response where
  statusCode : Nat
  location : Option String
  body : String
deriving DecidableEq, Repr

/-- The network oracle: `none` models a transport-level error for that URL. -/
abbrev Net := String → Option Response

/-- Outcome of an awaited `download(url)` promise. -/
inductive DlResult
  | ok (body : String)
  | err
deriving DecidableEq, Repr

/-- JS truthiness of an optional string value (`undefined` and `''` are
falsy); used for `response.headers.location` and `icon?.simpleIconsSlug`. -/
def strTruthy : Option String → Bool
  | none => false
  | some s => s != ""

/-- `function download(url)` of the source, with fuel: follow a redirect
(status in [300,400) with a truthy `Location` header), else reject unless the
status is 200, else resolve with the body. -/
def downloadFuel (net : Net) : Nat → String → Option DlResult
  | 0, _ => none
  | fuel + 1, url =>
    match net url with
    | none => some DlResult.err
    | some response =>
      if 300 ≤ response.statusCode ∧ response.statusCode < 400 ∧
          strTruthy response.location = true then
        downloadFuel net fuel (response.location.getD "")
      else if response.statusCode ≠ 200 then some DlResult.err
      else some (DlResult.ok response.body)

/-- One record of the `ICONS` catalog: `{ key, hasTheme, simpleIconsSlug }`
(`simpleIconsSlug` is optional in the source). -/
structure Icon where
  key : String
  hasTheme : Bool
  simpleIconsSlug : Option String
deriving DecidableEq, Repr

/-- The filesystem: an association list from paths to file contents. -/
abbrev FS := List (String × String)

/-- `fs.existsSync` on the modelled filesystem. -/
def existsSync (fs : FS) (p : String) : Bool :=
  (List.lookup p fs).isSome

/-- `fs.writeFileSync(p, c)`: the new binding shadows any earlier one. -/
def writeFileSync (fs : FS) (p c : String) : FS :=
  (p, c) :: fs

/-- `OUTPUT_DIR` (`path.join(__dirname, '../public/images/tech-stack-icons')`);
the concrete string value is irrelevant to every claim. -/
def OUTPUT_DIR : String := "public/images/tech-stack-icons"

/-- `CHANHDAI_BASE`, the primary source. -/
def CHANHDAI_BASE : String := "https://assets.chanhdai.com/images/tech-stack-icons"

/-- `SIMPLE_ICONS_BASE`, the fallback source. -/
def SIMPLE_ICONS_BASE : String := "https://cdn.simpleicons.org"

/-- `const filename = suffix ? key+suffix+'.svg' : key+'.svg'`. -/
def filenameOf (key suffix : String) : String :=
  if suffix != "" then key ++ suffix ++ ".svg" else key ++ ".svg"

/-- `const outputPath = path.join(OUTPUT_DIR, filename)`. -/
def outPath (key suffix : String) : String :=
  OUTPUT_DIR ++ "/" ++ filenameOf key suffix

/-- Result of one `downloadIcon` call: the returned boolean, the filesystem
after the call, the `console.log` lines printed, and the URLs passed to
`download` (in order). -/
structure IconResult where
  ok : Bool
  fs : FS
  log : List String
  reqs : List String
deriving DecidableEq, Repr

/-- `async function downloadIcon(key, suffix = '')`. Returns `none` when an
awaited `download` diverges (ran out of fuel). The `ICONS` global read by
`ICONS.find(i => i.key === key)` is the `icons` parameter. -/
def downloadIcon (icons : List Icon) (net : Net) (fuel : Nat) (fs : FS)
    (key : String) (suffix : String := "") : Option IconResult :=
  let filename := filenameOf key suffix
  let outputPath := OUTPUT_DIR ++ "/" ++ filename
  if existsSync fs outputPath then
    some ⟨true, fs, ["✓ " ++ filename ++ " (exists)"], []⟩
  else
    let url := CHANHDAI_BASE ++ "/" ++ filename
    match downloadFuel net fuel url with
    | none => none
    | some (DlResult.ok svg) =>
      some ⟨true, writeFileSync fs outputPath svg,
            ["✓ " ++ filename ++ " (chanhdai)"], [url]⟩
    | some DlResult.err =>
      match List.find? (fun i => i.key == key) icons with
      | some icon =>
        if strTruthy icon.simpleIconsSlug && (suffix == "") then
          let url2 := SIMPLE_ICONS_BASE ++ "/" ++ icon.simpleIconsSlug.getD ""
          match downloadFuel net fuel url2 with
          | none => none
          | some (DlResult.ok svg) =>
            some ⟨true, writeFileSync fs outputPath svg,
                  ["✓ " ++ filename ++ " (simpleicons)"], [url, url2]⟩
          | some DlResult.err =>
            some ⟨false, fs, ["✗ " ++ filename ++ " (not found)"], [url, url2]⟩
        else
          some ⟨false, fs, ["✗ " ++ filename ++ " (not found)"], [url]⟩
      | none => some ⟨false, fs, ["✗ " ++ filename ++ " (not found)"], [url]⟩

/-- Result of the driver loop of `main`: the `success` and `failed` counters,
the final filesystem, the per-file progress lines, and all URLs passed to
`download`, in order. -/
structure RunResult where
  success : Nat
  failed : Nat
  fs : FS
  log : List String
  reqs : List String
deriving DecidableEq, Repr

/-- The `for (const icon of ICONS)` loop of `main`: light then dark for a
themed entry (one success only if both succeed), a single resolution
otherwise. The head entry's contribution is added to the tail's counters,
which equals the source's in-place `success++` / `failed++` totals. -/
def runIcons (icons : List Icon) (net : Net) (fuel : Nat) :
    List Icon → FS → Option RunResult
  | [], fs => some ⟨0, 0, fs, [], []⟩
  | icon :: rest, fs =>
    if icon.hasTheme then
      match downloadIcon icons net fuel fs icon.key "-light" with
      | none => none
      | some rl =>
        match downloadIcon icons net fuel rl.fs icon.key "-dark" with
        | none => none
        | some rd =>
          match runIcons icons net fuel rest rd.fs with
          | none => none
          | some rr =>
            some ⟨(if rl.ok && rd.ok then 1 else 0) + rr.success,
                  (if rl.ok && rd.ok then 0 else 1) + rr.failed,
                  rr.fs, rl.log ++ rd.log ++ rr.log, rl.reqs ++ rd.reqs ++ rr.reqs⟩
    else
      match downloadIcon icons net fuel fs icon.key "" with
      | none => none
      | some r1 =>
        match runIcons icons net fuel rest r1.fs with
        | none => none
        | some rr =>
          some ⟨(if r1.ok then 1 else 0) + rr.success,
                (if r1.ok then 0 else 1) + rr.failed,
                rr.fs, r1.log ++ rr.log, r1.reqs ++ rr.reqs⟩

/-- The `ICONS` catalog, transcribed from the source. -/
def ICONS : List Icon := [
  ⟨"typescript", false, none⟩,
  ⟨"js", false, none⟩,
  ⟨"python", false, none⟩,
  ⟨"php", false, none⟩,
  ⟨"java", false, none⟩,
  ⟨"html5", false, some "html5"⟩,
  ⟨"css3", false, some "css3"⟩,
  ⟨"rust", false, some "rust"⟩,
  ⟨"cpp", false, some "cplusplus"⟩,
  ⟨"nodejs", false, none⟩,
  ⟨"bun", false, none⟩,
  ⟨"react", false, none⟩,
  ⟨"nextjs2", true, none⟩,
  ⟨"tailwindcss", false, none⟩,
  ⟨"shadcn-ui", true, none⟩,
  ⟨"radixui", true, none⟩,
  ⟨"base-ui", true, none⟩,
  ⟨"motion", false, none⟩,
  ⟨"tanstack", true, none⟩,
  ⟨"mobx-state-tree", false, none⟩,
  ⟨"redux", false, none⟩,
  ⟨"antd", false, none⟩,
  ⟨"react-router", true, none⟩,
  ⟨"react-navigation", false, none⟩,
  ⟨"loopback", false, none⟩,
  ⟨"laravel", false, none⟩,
  ⟨"expressjs", true, some "express"⟩,
  ⟨"honojs", false, some "hono"⟩,
  ⟨"mysql", false, none⟩,
  ⟨"mongodb", false, none⟩,
  ⟨"redis", false, none⟩,
  ⟨"postgresql", false, some "postgresql"⟩,
  ⟨"prisma", true, some "prisma"⟩,
  ⟨"drizzle", false, some "drizzle"⟩,
  ⟨"git", false, none⟩,
  ⟨"docker", false, none⟩,
  ⟨"vercel", true, some "vercel"⟩,
  ⟨"aws", false, some "amazonwebservices"⟩,
  ⟨"supabase", false, some "supabase"⟩,
  ⟨"graphql", false, some "graphql"⟩,
  ⟨"clerk", true, some "clerk"⟩,
  ⟨"stripe", false, some "stripe"⟩,
  ⟨"figma", false, none⟩,
  ⟨"ps", false, none⟩,
  ⟨"chatgpt", true, none⟩]

/-- The driver `main` applied to the program's own catalog, starting from a
given filesystem state. -/
def mainRun (net : Net) (fuel : Nat) (fs : FS) : Option RunResult :=
  runIcons ICONS net fuel ICONS fs

/-- The URL of the primary-source request for a given key and suffix. -/
def primaryUrl (k s : String) : String := CHANHDAI_BASE ++ "/" ++ filenameOf k s

/-- The URL of the fallback-source request for a given slug. -/
def fallbackUrl (slug : String) : String := SIMPLE_ICONS_BASE ++ "/" ++ slug

/-- The failure progress line for a given key and suffix. -/
def notFoundLine (k s : String) : String := "✗ " ++ filenameOf k s ++ " (not found)"

/-- Whether `line` is one of the four progress lines `downloadIcon` can print
for target file `fn`. -/
def lineFor (fn line : String) : Bool :=
  line == "✓ " ++ fn ++ " (exists)" || line == "✓ " ++ fn ++ " (chanhdai)" ||
  line == "✓ " ++ fn ++ " (simpleicons)" || line == "✗ " ++ fn ++ " (not found)"

/-- The target filenames of a catalog, in attempt order: catalog order, with
the `-light` variant before the `-dark` variant for themed entries. -/
def targetFiles : List Icon → List String
  | [] => []
  | e :: rest =>
    (if e.hasTheme then [filenameOf e.key "-light", filenameOf e.key "-dark"]
     else [filenameOf e.key ""]) ++ targetFiles rest

/-- `linesMatch fns lines` holds when `lines` has exactly one progress line
per filename of `fns`, in the same order. -/
def linesMatch : List String → List String → Bool
  | [], [] => true
  | fn :: fns, line :: lines => lineFor fn line && linesMatch fns lines
  | _, _ => false

/-- Modelled from the spec: the "final (post-redirect) response" of the HTTP
fetch primitive (§4.1), obtained by following redirects from `url` with the
same fuel discipline as `downloadFuel`. `none` = the chain did not finish
within `fuel`; `some none` = a transport-level error was hit; `some (some r)`
= the chain ended at the non-redirect response `r`. Used only to state the
characterization of `downloadFuel`'s success/failure (claim C6). -/
def finalResp (net : Net) : Nat → String → Option (Option Response)
  | 0, _ => none
  | fuel + 1, url =>
    match net url with
    | none => some none
    | some response =>
      if 300 ≤ response.statusCode ∧ response.statusCode < 400 ∧
          strTruthy response.location = true then
        finalResp net fuel (response.location.getD "")
      else some (some response)

/-- A network where every URL answers HTTP 404 (reachable, nothing found). -/
def net404 : Net := fun _ => some ⟨404, none, ""⟩

/-- A network where every URL answers HTTP 200 with body `"OK"`. -/
def netOk : Net := fun _ => some ⟨200, none, "OK"⟩

/-- A network where only the fallback URL for slug `"s"` succeeds. -/
def netFb : Net := fun u =>
  if u = fallbackUrl "s" then some ⟨200, none, "FBBODY"⟩ else some ⟨404, none, ""⟩

/-- A network with one redirect chain (`urlA` → 302 → `urlB` → 200) and one
redirect loop (`urlLoop` → 302 → `urlLoop`). -/
def netRedir : Net := fun u =>
  if u = "urlA" then some ⟨302, some "urlB", ""⟩
  else if u = "urlB" then some ⟨200, none, "BODY-B"⟩
  else if u = "urlLoop" then some ⟨302, some "urlLoop", ""⟩
  else none

/-- A one-entry themed catalog, for concrete instantiations. -/
def iconsT : List Icon := [⟨"t", true, none⟩]

/-- A one-entry non-themed catalog without fallback slug. -/
def iconsA : List Icon := [⟨"a", false, none⟩]

/-- A one-entry themed catalog that declares a fallback slug. -/
def iconsW : List Icon := [⟨"a", true, some "s"⟩]

/-- A one-entry non-themed catalog that declares a fallback slug. -/
def iconsFb : List Icon := [⟨"b", false, some "s"⟩]

/-- The result of running the driver on `iconsT` against `net404`. -/
def rT : RunResult :=
  ⟨0, 1, [], [notFoundLine "t" "-light", notFoundLine "t" "-dark"],
   [primaryUrl "t" "-light", primaryUrl "t" "-dark"]⟩

/-- The result of running the driver on `iconsA` against `netOk`. -/
def rA : RunResult :=
  ⟨1, 0, [(outPath "a" "", "OK")], ["✓ a.svg (chanhdai)"], [primaryUrl "a" ""]⟩

/-- The result of `downloadIcon` on an empty catalog against `net404`. -/
def resW : IconResult := ⟨false, [], [notFoundLine "a" ""], [primaryUrl "a" ""]⟩

/-- The filesystem of an optional run result (empty when absent). -/
def fsAfter : Option RunResult → FS
  | some r => r.fs
  | none => []

/-- The issued request URLs of an optional run result (empty when absent). -/
def reqsOf : Option RunResult → List String
  | some r => r.reqs
  | none => []

/-- The program run once against `net404` on an empty output directory. -/
def firstRun404 : Option RunResult := mainRun net404 1 []

/-- The program run a second time against `net404`, on the filesystem the
first run left behind. -/
def secondRun404 : Option RunResult := mainRun net404 1 (fsAfter firstRun404)

theorem lookup_write_self (fs : FS) (p c : String) :
    List.lookup p (writeFileSync fs p c) = some c := by
  simp [writeFileSync, List.lookup]

theorem lookup_write_preserve (fs : FS) (p q c v : String)
    (hp : List.lookup p fs = none) (hq : List.lookup q fs = some v) :
    List.lookup q (writeFileSync fs p c) = some v := by
  have hne : q ≠ p := by
    intro e; subst e; rw [hp] at hq; exact Option.noConfusion hq
  simp [writeFileSync, List.lookup, beq_eq_false_iff_ne.mpr hne, hq]

theorem existsSync_false_lookup (fs : FS) (p : String)
    (h : existsSync fs p = false) : List.lookup p fs = none := by
  unfold existsSync at h
  cases hl : List.lookup p fs with
  | none => rfl
  | some v => rw [hl] at h; exact absurd h (by simp)

theorem lookup_existsSync (fs : FS) (p v : String)
    (h : List.lookup p fs = some v) : existsSync fs p = true := by
  unfold existsSync; rw [h]; rfl

theorem dl_exists_skip (icons : List Icon) (net : Net) (fuel : Nat) (fs : FS)
    (k s v : String) (h : List.lookup (outPath k s) fs = some v) :
    downloadIcon icons net fuel fs k s =
      some ⟨true, fs, ["✓ " ++ filenameOf k s ++ " (exists)"], []⟩ := by
  unfold downloadIcon
  have hex : existsSync fs (OUTPUT_DIR ++ "/" ++ filenameOf k s) = true :=
    lookup_existsSync fs (outPath k s) v h
  simp [hex]

theorem dl_cases (icons : List Icon) (net : Net) (fuel : Nat) (fs : FS)
    (k s : String) (res : IconResult)
    (h : downloadIcon icons net fuel fs k s = some res) :
    (existsSync fs (outPath k s) = true ∧
      res = ⟨true, fs, ["✓ " ++ filenameOf k s ++ " (exists)"], []⟩) ∨
    (existsSync fs (outPath k s) = false ∧
      ((∃ svg, downloadFuel net fuel (primaryUrl k s) = some (DlResult.ok svg) ∧
          res = ⟨true, writeFileSync fs (outPath k s) svg,
                 ["✓ " ++ filenameOf k s ++ " (chanhdai)"], [primaryUrl k s]⟩) ∨
       (downloadFuel net fuel (primaryUrl k s) = some DlResult.err ∧
        ((∃ icon, List.find? (fun i => i.key == k) icons = some icon ∧
            (strTruthy icon.simpleIconsSlug && (s == "")) = true ∧
            ((∃ svg, downloadFuel net fuel
                  (fallbackUrl (icon.simpleIconsSlug.getD "")) = some (DlResult.ok svg) ∧
                res = ⟨true, writeFileSync fs (outPath k s) svg,
                       ["✓ " ++ filenameOf k s ++ " (simpleicons)"],
                       [primaryUrl k s, fallbackUrl (icon.simpleIconsSlug.getD "")]⟩) ∨
             (downloadFuel net fuel
                  (fallbackUrl (icon.simpleIconsSlug.getD "")) = some DlResult.err ∧
              res = ⟨false, fs, [notFoundLine k s],
                     [primaryUrl k s, fallbackUrl (icon.simpleIconsSlug.getD "")]⟩))) ∨
         ((∀ icon, List.find? (fun i => i.key == k) icons = some icon →
             (strTruthy icon.simpleIconsSlug && (s == "")) = false) ∧
          res = ⟨false, fs, [notFoundLine k s], [primaryUrl k s]⟩))))) := by
  unfold downloadIcon at h
  cases hex : existsSync fs (OUTPUT_DIR ++ "/" ++ filenameOf k s) with
  | true =>
    simp only [hex, if_true] at h
    exact Or.inl ⟨hex, (Option.some_inj.mp h).symm⟩
  | false =>
    simp only [hex, Bool.false_eq_true, if_false] at h
    refine Or.inr ⟨hex, ?_⟩
    cases hdl : downloadFuel net fuel (CHANHDAI_BASE ++ "/" ++ filenameOf k s) with
    | none => rw [hdl] at h; exact Option.noConfusion h
    | some d =>
      rw [hdl] at h
      cases d with
      | ok svg =>
        exact Or.inl ⟨svg, hdl, (Option.some_inj.mp h).symm⟩
      | err =>
        refine Or.inr ⟨hdl, ?_⟩
        cases hfind : List.find? (fun i => i.key == k) icons with
        | none =>
          rw [hfind] at h
          exact Or.inr ⟨fun icon he => Option.noConfusion he, (Option.some_inj.mp h).symm⟩
        | some icon =>
          rw [hfind] at h
          cases helig : strTruthy icon.simpleIconsSlug && (s == "") with
          | false =>
            simp only [helig, Bool.false_eq_true, if_false] at h
            refine Or.inr ⟨fun icon2 he => ?_, (Option.some_inj.mp h).symm⟩
            cases Option.some_inj.mp he
            exact helig
          | true =>
            simp only [helig, if_true] at h
            refine Or.inl ⟨icon, rfl, helig, ?_⟩
            cases hdl2 : downloadFuel net fuel
                (SIMPLE_ICONS_BASE ++ "/" ++ icon.simpleIconsSlug.getD "") with
            | none => rw [hdl2] at h; exact Option.noConfusion h
            | some d2 =>
              rw [hdl2] at h
              cases d2 with
              | ok svg => exact Or.inl ⟨svg, hdl2, (Option.some_inj.mp h).symm⟩
              | err => exact Or.inr ⟨hdl2, (Option.some_inj.mp h).symm⟩

theorem elig_decomp (icon : Icon) (s : String)
    (h : (strTruthy icon.simpleIconsSlug && (s == "")) = true) :
    s = "" ∧ ∃ slug, icon.simpleIconsSlug = some slug ∧ slug ≠ "" := by
  simp only [Bool.and_eq_true] at h
  obtain ⟨h1, h2⟩ := h
  refine ⟨by simpa using h2, ?_⟩
  cases hs : icon.simpleIconsSlug with
  | none => rw [hs] at h1; exact absurd h1 (by simp [strTruthy])
  | some slug =>
    rw [hs] at h1
    exact ⟨slug, rfl, by simpa [strTruthy] using h1⟩

theorem dl_mono (icons : List Icon) (net : Net) (fuel : Nat) (fs : FS)
    (k s : String) (res : IconResult)
    (h : downloadIcon icons net fuel fs k s = some res)
    (q v : String) (hq : List.lookup q fs = some v) :
    List.lookup q res.fs = some v := by
  rcases dl_cases icons net fuel fs k s res h with
    ⟨hex, rfl⟩ |
    ⟨hex, ⟨svg, hdl, rfl⟩ |
          ⟨hdl, ⟨icon, hfind, helig, ⟨svg, hdl2, rfl⟩ | ⟨hdl2, rfl⟩⟩ | ⟨hinelig, rfl⟩⟩⟩
  · exact hq
  · exact lookup_write_preserve fs _ q _ v (existsSync_false_lookup fs _ hex) hq
  · exact lookup_write_preserve fs _ q _ v (existsSync_false_lookup fs _ hex) hq
  · exact hq
  · exact hq

theorem dl_ok_exists (icons : List Icon) (net : Net) (fuel : Nat) (fs : FS)
    (k s : String) (res : IconResult)
    (h : downloadIcon icons net fuel fs k s = some res) (hok : res.ok = true) :
    (List.lookup (outPath k s) res.fs).isSome = true := by
  rcases dl_cases icons net fuel fs k s res h with
    ⟨hex, rfl⟩ |
    ⟨hex, ⟨svg, hdl, rfl⟩ |
          ⟨hdl, ⟨icon, hfind, helig, ⟨svg, hdl2, rfl⟩ | ⟨hdl2, rfl⟩⟩ | ⟨hinelig, rfl⟩⟩⟩
  · exact hex
  · simp [lookup_write_self]
  · simp [lookup_write_self]
  · exact absurd hok (by simp)
  · exact absurd hok (by simp)

theorem dl_fail (icons : List Icon) (net : Net) (fuel : Nat) (fs : FS)
    (k s : String) (res : IconResult)
    (h : downloadIcon icons net fuel fs k s = some res) (hok : res.ok = false) :
    res.fs = fs ∧ List.lookup (outPath k s) fs = none := by
  rcases dl_cases icons net fuel fs k s res h with
    ⟨hex, rfl⟩ |
    ⟨hex, ⟨svg, hdl, rfl⟩ |
          ⟨hdl, ⟨icon, hfind, helig, ⟨svg, hdl2, rfl⟩ | ⟨hdl2, rfl⟩⟩ | ⟨hinelig, rfl⟩⟩⟩
  · exact absurd hok (by simp)
  · exact absurd hok (by simp)
  · exact absurd hok (by simp)
  · exact ⟨rfl, existsSync_false_lookup fs _ hex⟩
  · exact ⟨rfl, existsSync_false_lookup fs _ hex⟩

theorem dl_log (icons : List Icon) (net : Net) (fuel : Nat) (fs : FS)
    (k s : String) (res : IconResult)
    (h : downloadIcon icons net fuel fs k s = some res) :
    ∃ line, res.log = [line] ∧ lineFor (filenameOf k s) line = true := by
  rcases dl_cases icons net fuel fs k s res h with
    ⟨hex, rfl⟩ |
    ⟨hex, ⟨svg, hdl, rfl⟩ |
          ⟨hdl, ⟨icon, hfind, helig, ⟨svg, hdl2, rfl⟩ | ⟨hdl2, rfl⟩⟩ | ⟨hinelig, rfl⟩⟩⟩
  · exact ⟨_, rfl, by simp [lineFor]⟩
  · exact ⟨_, rfl, by simp [lineFor]⟩
  · exact ⟨_, rfl, by simp [lineFor]⟩
  · exact ⟨_, rfl, by simp [lineFor, notFoundLine]⟩
  · exact ⟨_, rfl, by simp [lineFor, notFoundLine]⟩

theorem dl_build_fail_inelig (icons : List Icon) (net : Net) (fuel : Nat)
    (fs : FS) (k s : String)
    (hex : List.lookup (outPath k s) fs = none)
    (hp : downloadFuel net fuel (primaryUrl k s) = some DlResult.err)
    (hinelig : ∀ icon, List.find? (fun i => i.key == k) icons = some icon →
       (strTruthy icon.simpleIconsSlug && (s == "")) = false) :
    downloadIcon icons net fuel fs k s =
      some ⟨false, fs, [notFoundLine k s], [primaryUrl k s]⟩ := by
  unfold downloadIcon
  have hex2 : existsSync fs (OUTPUT_DIR ++ "/" ++ filenameOf k s) = false := by
    unfold existsSync
    rw [show OUTPUT_DIR ++ "/" ++ filenameOf k s = outPath k s from rfl, hex]
    rfl
  simp only [hex2, Bool.false_eq_true, if_false]
  rw [show CHANHDAI_BASE ++ "/" ++ filenameOf k s = primaryUrl k s from rfl, hp]
  cases hfind : List.find? (fun i => i.key == k) icons with
  | none => simp [notFoundLine, primaryUrl]
  | some icon => simp [hinelig icon hfind, notFoundLine, primaryUrl]

theorem dl_build_fb (icons : List Icon) (net : Net) (fuel : Nat) (fs : FS)
    (k : String) (icon : Icon) (slug : String)
    (hex : List.lookup (outPath k "") fs = none)
    (hp : downloadFuel net fuel (primaryUrl k "") = some DlResult.err)
    (hfind : List.find? (fun i => i.key == k) icons = some icon)
    (hslug : icon.simpleIconsSlug = some slug) (hs : slug ≠ "") :
    downloadIcon icons net fuel fs k "" =
      match downloadFuel net fuel (fallbackUrl slug) with
      | none => none
      | some (DlResult.ok svg) =>
        some ⟨true, writeFileSync fs (outPath k "") svg,
              ["✓ " ++ filenameOf k "" ++ " (simpleicons)"],
              [primaryUrl k "", fallbackUrl slug]⟩
      | some DlResult.err =>
        some ⟨false, fs, [notFoundLine k ""],
              [primaryUrl k "", fallbackUrl slug]⟩ := by
  have hex2 : existsSync fs (OUTPUT_DIR ++ "/" ++ filenameOf k "") = false := by
    unfold existsSync
    rw [show OUTPUT_DIR ++ "/" ++ filenameOf k "" = outPath k "" from rfl, hex]
    rfl
  have hp2 : downloadFuel net fuel (CHANHDAI_BASE ++ "/" ++ filenameOf k "") =
      some DlResult.err := hp
  cases hdl2 : downloadFuel net fuel (fallbackUrl slug) with
  | none =>
    have hdl2b : downloadFuel net fuel (SIMPLE_ICONS_BASE ++ "/" ++ slug) = none := hdl2
    simp [downloadIcon, hex2, hp2, hfind, hslug, strTruthy, hs, hdl2b]
  | some d =>
    have hdl2b : downloadFuel net fuel (SIMPLE_ICONS_BASE ++ "/" ++ slug) = some d := hdl2
    cases d with
    | ok svg =>
      simp [downloadIcon, hex2, hp2, hfind, hslug, strTruthy, hs, hdl2b,
            outPath, notFoundLine, primaryUrl, fallbackUrl]
    | err =>
      simp [downloadIcon, hex2, hp2, hfind, hslug, strTruthy, hs, hdl2b,
            outPath, notFoundLine, primaryUrl, fallbackUrl]

theorem dl_rerun_fail (icons : List Icon) (net : Net) (fuel : Nat) (fs fs' : FS)
    (k s : String) (res : IconResult)
    (h : downloadIcon icons net fuel fs k s = some res) (hok : res.ok = false)
    (hex2 : List.lookup (outPath k s) fs' = none) :
    downloadIcon icons net fuel fs' k s = some ⟨false, fs', res.log, res.reqs⟩ := by
  rcases dl_cases icons net fuel fs k s res h with
    ⟨hex, rfl⟩ |
    ⟨hex, ⟨svg, hdl, rfl⟩ |
          ⟨hdl, ⟨icon, hfind, helig, ⟨svg, hdl2, rfl⟩ | ⟨hdl2, rfl⟩⟩ | ⟨hinelig, rfl⟩⟩⟩
  · exact absurd hok (by simp)
  · exact absurd hok (by simp)
  · exact absurd hok (by simp)
  · obtain ⟨hse, slug, hslug, hsne⟩ := elig_decomp icon s helig
    subst hse
    have hb := dl_build_fb icons net fuel fs' k icon slug hex2 hdl hfind hslug hsne
    rw [hslug] at hdl2
    have hdl2b : downloadFuel net fuel (fallbackUrl slug) = some DlResult.err := hdl2
    rw [hdl2b] at hb
    simp only [hslug]
    exact hb
  · exact dl_build_fail_inelig icons net fuel fs' k s hex2 hdl hinelig

theorem dl_second (icons : List Icon) (net : Net) (fuel : Nat) (fs fs' : FS)
    (k s : String) (res : IconResult)
    (h : downloadIcon icons net fuel fs k s = some res)
    (hmono : ∀ q v, List.lookup q res.fs = some v → List.lookup q fs' = some v) :
    ∃ res', downloadIcon icons net fuel fs' k s = some res' ∧ res'.fs = fs' ∧
      (res.ok = true → res'.ok = true ∧ res'.reqs = []) := by
  cases hok : res.ok with
  | true =>
    obtain ⟨v, hv⟩ := Option.isSome_iff_exists.mp (dl_ok_exists icons net fuel fs k s res h hok)
    have hv2 := hmono _ v hv
    exact ⟨_, dl_exists_skip icons net fuel fs' k s v hv2, rfl, fun _ => ⟨rfl, rfl⟩⟩
  | false =>
    cases hmem : List.lookup (outPath k s) fs' with
    | some v =>
      exact ⟨_, dl_exists_skip icons net fuel fs' k s v hmem, rfl,
             fun ht => absurd ht (by simp [hok])⟩
    | none =>
      exact ⟨_, dl_rerun_fail icons net fuel fs fs' k s res h hok hmem, rfl,
             fun ht => absurd ht (by simp [hok])⟩

theorem runIcons_nil (icons : List Icon) (net : Net) (fuel : Nat) (fs : FS) :
    runIcons icons net fuel [] fs = some ⟨0, 0, fs, [], []⟩ := rfl

theorem runIcons_themed_inv (icons : List Icon) (net : Net) (fuel : Nat)
    (e : Icon) (rest : List Icon) (fs : FS) (r : RunResult)
    (hT : e.hasTheme = true)
    (h : runIcons icons net fuel (e :: rest) fs = some r) :
    ∃ rl rd rr, downloadIcon icons net fuel fs e.key "-light" = some rl ∧
      downloadIcon icons net fuel rl.fs e.key "-dark" = some rd ∧
      runIcons icons net fuel rest rd.fs = some rr ∧
      r = ⟨(if rl.ok && rd.ok then 1 else 0) + rr.success,
           (if rl.ok && rd.ok then 0 else 1) + rr.failed,
           rr.fs, rl.log ++ rd.log ++ rr.log, rl.reqs ++ rd.reqs ++ rr.reqs⟩ := by
  unfold runIcons at h
  simp only [hT, eq_self_iff_true, if_true] at h
  cases hl : downloadIcon icons net fuel fs e.key "-light" with
  | none => rw [hl] at h; exact Option.noConfusion h
  | some rl =>
    simp only [hl] at h
    cases hd : downloadIcon icons net fuel rl.fs e.key "-dark" with
    | none => rw [hd] at h; exact Option.noConfusion h
    | some rd =>
      simp only [hd] at h
      cases hr : runIcons icons net fuel rest rd.fs with
      | none => rw [hr] at h; exact Option.noConfusion h
      | some rr =>
        simp only [hr] at h
        exact ⟨rl, rd, rr, rfl, hd, hr, (Option.some_inj.mp h).symm⟩

theorem runIcons_plain_inv (icons : List Icon) (net : Net) (fuel : Nat)
    (e : Icon) (rest : List Icon) (fs : FS) (r : RunResult)
    (hT : e.hasTheme = false)
    (h : runIcons icons net fuel (e :: rest) fs = some r) :
    ∃ r1 rr, downloadIcon icons net fuel fs e.key "" = some r1 ∧
      runIcons icons net fuel rest r1.fs = some rr ∧
      r = ⟨(if r1.ok then 1 else 0) + rr.success,
           (if r1.ok then 0 else 1) + rr.failed,
           rr.fs, r1.log ++ rr.log, r1.reqs ++ rr.reqs⟩ := by
  unfold runIcons at h
  simp only [hT, Bool.false_eq_true, if_false] at h
  cases h1 : downloadIcon icons net fuel fs e.key "" with
  | none => rw [h1] at h; exact Option.noConfusion h
  | some r1 =>
    simp only [h1] at h
    cases hr : runIcons icons net fuel rest r1.fs with
    | none => rw [hr] at h; exact Option.noConfusion h
    | some rr =>
      simp only [hr] at h
      exact ⟨r1, rr, rfl, hr, (Option.some_inj.mp h).symm⟩

theorem runIcons_themed_eq (icons : List Icon) (net : Net) (fuel : Nat)
    (e : Icon) (rest : List Icon) (fs : FS)
    (rl rd : IconResult) (rr : RunResult)
    (hT : e.hasTheme = true)
    (hl : downloadIcon icons net fuel fs e.key "-light" = some rl)
    (hd : downloadIcon icons net fuel rl.fs e.key "-dark" = some rd)
    (hr : runIcons icons net fuel rest rd.fs = some rr) :
    runIcons icons net fuel (e :: rest) fs =
      some ⟨(if rl.ok && rd.ok then 1 else 0) + rr.success,
            (if rl.ok && rd.ok then 0 else 1) + rr.failed,
            rr.fs, rl.log ++ rd.log ++ rr.log, rl.reqs ++ rd.reqs ++ rr.reqs⟩ := by
  unfold runIcons
  simp only [hT, eq_self_iff_true, if_true, hl, hd, hr]

theorem runIcons_plain_eq (icons : List Icon) (net : Net) (fuel : Nat)
    (e : Icon) (rest : List Icon) (fs : FS)
    (r1 : IconResult) (rr : RunResult)
    (hT : e.hasTheme = false)
    (h1 : downloadIcon icons net fuel fs e.key "" = some r1)
    (hr : runIcons icons net fuel rest r1.fs = some rr) :
    runIcons icons net fuel (e :: rest) fs =
      some ⟨(if r1.ok then 1 else 0) + rr.success,
            (if r1.ok then 0 else 1) + rr.failed,
            rr.fs, r1.log ++ rr.log, r1.reqs ++ rr.reqs⟩ := by
  unfold runIcons
  simp only [hT, Bool.false_eq_true, if_false, h1, hr]

theorem run_mono (icons : List Icon) (net : Net) (fuel : Nat) (l : List Icon) :
    ∀ (fs : FS) (r : RunResult), runIcons icons net fuel l fs = some r →
    ∀ q v, List.lookup q fs = some v → List.lookup q r.fs = some v := by
  induction l with
  | nil =>
    intro fs r h q v hq
    rw [runIcons_nil] at h
    rw [← Option.some_inj.mp h]
    exact hq
  | cons e rest ih =>
    intro fs r h q v hq
    cases hT : e.hasTheme with
    | true =>
      obtain ⟨rl, rd, rr, hl, hd, hr, rfl⟩ :=
        runIcons_themed_inv icons net fuel e rest fs r hT h
      exact ih rd.fs rr hr q v
        (dl_mono icons net fuel rl.fs e.key "-dark" rd hd q v
          (dl_mono icons net fuel fs e.key "-light" rl hl q v hq))
    | false =>
      obtain ⟨r1, rr, h1, hr, rfl⟩ :=
        runIcons_plain_inv icons net fuel e rest fs r hT h
      exact ih r1.fs rr hr q v
        (dl_mono icons net fuel fs e.key "" r1 h1 q v hq)

theorem run_second_fs (icons : List Icon) (net : Net) (fuel : Nat) (l : List Icon) :
    ∀ (fs : FS) (r1 : RunResult), runIcons icons net fuel l fs = some r1 →
    ∃ r2, runIcons icons net fuel l r1.fs = some r2 ∧ r2.fs = r1.fs := by
  induction l with
  | nil =>
    intro fs r1 h
    exact ⟨⟨0, 0, r1.fs, [], []⟩, runIcons_nil icons net fuel r1.fs, rfl⟩
  | cons e rest ih =>
    intro fs r1 h
    cases hT : e.hasTheme with
    | true =>
      obtain ⟨rl, rd, rr, hl, hd, hr, rfl⟩ :=
        runIcons_themed_inv icons net fuel e rest fs r1 hT h
      obtain ⟨rl2, hl2, hlfs, _⟩ := dl_second icons net fuel fs rr.fs e.key "-light" rl hl
        (fun q v hv => run_mono icons net fuel rest rd.fs rr hr q v
          (dl_mono icons net fuel rl.fs e.key "-dark" rd hd q v hv))
      obtain ⟨rd2, hd2, hdfs, _⟩ := dl_second icons net fuel rl.fs rr.fs e.key "-dark" rd hd
        (fun q v hv => run_mono icons net fuel rest rd.fs rr hr q v hv)
      obtain ⟨rr2, hr2, hrfs⟩ := ih rd.fs rr hr
      have hd2b : downloadIcon icons net fuel rl2.fs e.key "-dark" = some rd2 := by
        rw [hlfs]; exact hd2
      have hr2b : runIcons icons net fuel rest rd2.fs = some rr2 := by
        rw [hdfs]; exact hr2
      exact ⟨_, runIcons_themed_eq icons net fuel e rest rr.fs rl2 rd2 rr2 hT hl2 hd2b hr2b,
             hrfs⟩
    | false =>
      obtain ⟨ra, rr, ha, hr, rfl⟩ :=
        runIcons_plain_inv icons net fuel e rest fs r1 hT h
      obtain ⟨ra2, ha2, hafs, _⟩ := dl_second icons net fuel fs rr.fs e.key "" ra ha
        (fun q v hv => run_mono icons net fuel rest ra.fs rr hr q v hv)
      obtain ⟨rr2, hr2, hrfs⟩ := ih ra.fs rr hr
      have hr2b : runIcons icons net fuel rest ra2.fs = some rr2 := by
        rw [hafs]; exact hr2
      exact ⟨_, runIcons_plain_eq icons net fuel e rest rr.fs ra2 rr2 hT ha2 hr2b, hrfs⟩

theorem run_second_noreq (icons : List Icon) (net : Net) (fuel : Nat) (l : List Icon) :
    ∀ (fs : FS) (r1 : RunResult), runIcons icons net fuel l fs = some r1 →
    r1.failed = 0 →
    ∃ r2, runIcons icons net fuel l r1.fs = some r2 ∧ r2.fs = r1.fs ∧
      r2.reqs = [] ∧ r2.success = r1.success ∧ r2.failed = 0 := by
  induction l with
  | nil =>
    intro fs r1 h hf
    rw [runIcons_nil] at h
    obtain rfl := Option.some_inj.mp h
    exact ⟨⟨0, 0, fs, [], []⟩, runIcons_nil icons net fuel fs, rfl, rfl, rfl, rfl⟩
  | cons e rest ih =>
    intro fs r1 h hf
    cases hT : e.hasTheme with
    | true =>
      obtain ⟨rl, rd, rr, hl, hd, hr, rfl⟩ :=
        runIcons_themed_inv icons net fuel e rest fs r1 hT h
      have hok : (rl.ok && rd.ok) = true := by
        cases hb : rl.ok && rd.ok
        · rw [hb] at hf; simp at hf
        · rfl
      have hrrf : rr.failed = 0 := by
        rw [hok] at hf; simpa using hf
      have hok2 := hok
      simp only [Bool.and_eq_true] at hok2
      obtain ⟨hlo, hdo⟩ := hok2
      obtain ⟨v1, hv1⟩ := Option.isSome_iff_exists.mp
        (dl_ok_exists icons net fuel fs e.key "-light" rl hl hlo)
      have hv1b := run_mono icons net fuel rest rd.fs rr hr _ v1
        (dl_mono icons net fuel rl.fs e.key "-dark" rd hd _ v1 hv1)
      obtain ⟨v2, hv2⟩ := Option.isSome_iff_exists.mp
        (dl_ok_exists icons net fuel rl.fs e.key "-dark" rd hd hdo)
      have hv2b := run_mono icons net fuel rest rd.fs rr hr _ v2 hv2
      have hl2 := dl_exists_skip icons net fuel rr.fs e.key "-light" v1 hv1b
      have hd2 := dl_exists_skip icons net fuel rr.fs e.key "-dark" v2 hv2b
      obtain ⟨rr2, hr2, hrfs, hrreqs, hrsucc, hrfail⟩ := ih rd.fs rr hr hrrf
      refine ⟨_, runIcons_themed_eq icons net fuel e rest rr.fs _ _ rr2 hT hl2 hd2 hr2,
              ?_, ?_, ?_, ?_⟩
      · exact hrfs
      · simpa using hrreqs
      · simp [hok, hrsucc]
      · simpa using hrfail
    | false =>
      obtain ⟨ra, rr, ha, hr, rfl⟩ :=
        runIcons_plain_inv icons net fuel e rest fs r1 hT h
      have hok : ra.ok = true := by
        cases hb : ra.ok
        · rw [hb] at hf; simp at hf
        · rfl
      have hrrf : rr.failed = 0 := by
        rw [hok] at hf; simpa using hf
      obtain ⟨v1, hv1⟩ := Option.isSome_iff_exists.mp
        (dl_ok_exists icons net fuel fs e.key "" ra ha hok)
      have hv1b := run_mono icons net fuel rest ra.fs rr hr _ v1 hv1
      have ha2 := dl_exists_skip icons net fuel rr.fs e.key "" v1 hv1b
      obtain ⟨rr2, hr2, hrfs, hrreqs, hrsucc, hrfail⟩ := ih ra.fs rr hr hrrf
      refine ⟨_, runIcons_plain_eq icons net fuel e rest rr.fs _ rr2 hT ha2 hr2, ?_, ?_, ?_, ?_⟩
      · exact hrfs
      · simpa using hrreqs
      · simp [hok, hrsucc]
      · simpa using hrfail

/-- C1: for a themed catalog entry and either themed suffix, when the
primary-source fetch for the suffixed filename fails, `downloadIcon` issues
no fallback request (its request list is exactly the one primary URL,
whatever `simpleIconsSlug` says), prints the not-found line, and returns
failure with the filesystem unchanged. -/
theorem claim_C1_fallback_gating (icons : List Icon) (net : Net) (fuel : Nat)
    (fs : FS) (k s : String)
    (hs : s = "-light" ∨ s = "-dark")
    (_hTheme : ∃ e ∈ icons, e.key = k ∧ e.hasTheme = true)
    (hex : List.lookup (outPath k s) fs = none)
    (hp : downloadFuel net fuel (primaryUrl k s) = some DlResult.err) :
    downloadIcon icons net fuel fs k s =
      some ⟨false, fs, [notFoundLine k s], [primaryUrl k s]⟩ := by
  refine dl_build_fail_inelig icons net fuel fs k s hex hp ?_
  intro icon _
  have hsne : (s == "") = false := by
    rcases hs with rfl | rfl <;> decide
  simp [hsne]

/-- Witness for C1 at a concrete themed entry that does declare a slug. -/
theorem claim_C1_witness :
    downloadIcon iconsW net404 1 [] "a" "-light" =
      some ⟨false, [], [notFoundLine "a" "-light"], [primaryUrl "a" "-light"]⟩ :=
  claim_C1_fallback_gating iconsW net404 1 [] "a" "-light" (Or.inl rfl)
    ⟨⟨"a", true, some "s"⟩, by decide, rfl, rfl⟩ (by decide) (by decide)

/-- C2: when a file already exists at the computed output path,
`downloadIcon` reports success, issues no network request (empty request
list), and returns the filesystem exactly as it was (so the existing
content, whatever it is, is untouched). -/
theorem claim_C2_exists_short_circuit (icons : List Icon) (net : Net)
    (fuel : Nat) (fs : FS) (k s v : String)
    (hex : List.lookup (outPath k s) fs = some v) :
    downloadIcon icons net fuel fs k s =
      some ⟨true, fs, ["✓ " ++ filenameOf k s ++ " (exists)"], []⟩ :=
  dl_exists_skip icons net fuel fs k s v hex

/-- Witness for C2 at a concrete pre-populated filesystem. -/
theorem claim_C2_witness :
    downloadIcon iconsA net404 1 [(outPath "a" "", "X")] "a" "" =
      some ⟨true, [(outPath "a" "", "X")],
            ["✓ " ++ filenameOf "a" "" ++ " (exists)"], []⟩ :=
  claim_C2_exists_short_circuit iconsA net404 1 [(outPath "a" "", "X")] "a" "" "X"
    (by decide)

/-- C9: `downloadIcon` returns `true` exactly when a file exists at the
computed output path in the state it returns; on `false` the filesystem is
returned unchanged (no file was created by the call). -/
theorem claim_C9_ok_iff_exists (icons : List Icon) (net : Net) (fuel : Nat)
    (fs : FS) (k s : String) (res : IconResult)
    (h : downloadIcon icons net fuel fs k s = some res) :
    (res.ok = true ↔ (List.lookup (outPath k s) res.fs).isSome = true) ∧
    (res.ok = false → res.fs = fs) := by
  constructor
  · constructor
    · exact dl_ok_exists icons net fuel fs k s res h
    · intro hex
      cases hok : res.ok with
      | false =>
        obtain ⟨hfs, hnone⟩ := dl_fail icons net fuel fs k s res h hok
        rw [hfs, hnone] at hex
        exact absurd hex (by simp)
      | true => rfl
  · intro hok
    exact (dl_fail icons net fuel fs k s res h hok).1

/-- Witness for C9 at a concrete failing call. -/
theorem claim_C9_witness :
    (resW.ok = true ↔ (List.lookup (outPath "a" "") resW.fs).isSome = true) ∧
    (resW.ok = false → resW.fs = []) :=
  claim_C9_ok_iff_exists iconsA net404 1 [] "a" "" resW (by decide)

/-- C10: after the driver loop, the succeeded count plus the failed count
equals the number of catalog entries processed. -/
theorem claim_C10_counter_sum (icons : List Icon) (net : Net) (fuel : Nat)
    (l : List Icon) :
    ∀ (fs : FS) (r : RunResult), runIcons icons net fuel l fs = some r →
    r.success + r.failed = l.length := by
  induction l with
  | nil =>
    intro fs r h
    rw [runIcons_nil] at h
    obtain rfl := Option.some_inj.mp h
    rfl
  | cons e rest ih =>
    intro fs r h
    cases hT : e.hasTheme with
    | true =>
      obtain ⟨rl, rd, rr, hl, hd, hr, rfl⟩ :=
        runIcons_themed_inv icons net fuel e rest fs r hT h
      have hrec := ih rd.fs rr hr
      simp only [List.length_cons]
      cases rl.ok && rd.ok <;> simp <;> omega
    | false =>
      obtain ⟨ra, rr, ha, hr, rfl⟩ :=
        runIcons_plain_inv icons net fuel e rest fs r hT h
      have hrec := ih ra.fs rr hr
      simp only [List.length_cons]
      cases ra.ok <;> simp <;> omega

/-- Witness for C10 on a concrete one-entry run. -/
theorem claim_C10_witness : rT.success + rT.failed = iconsT.length :=
  claim_C10_counter_sum iconsT net404 1 iconsT [] rT (by decide)

/-- C3: for a themed entry at the head of the loop, the driver resolves the
`-light` suffix and then the `-dark` suffix; the entry adds exactly one
success if and only if both resolutions succeed, otherwise exactly one
failure; and when the light variant succeeded, the light file is present in
the filesystem the whole run returns. -/
theorem claim_C3_themed_all_or_nothing (icons : List Icon) (net : Net)
    (fuel : Nat) (e : Icon) (rest : List Icon) (fs : FS) (r : RunResult)
    (hT : e.hasTheme = true)
    (h : runIcons icons net fuel (e :: rest) fs = some r) :
    ∃ rl rd rr,
      downloadIcon icons net fuel fs e.key "-light" = some rl ∧
      downloadIcon icons net fuel rl.fs e.key "-dark" = some rd ∧
      runIcons icons net fuel rest rd.fs = some rr ∧
      (r.success = rr.success + 1 ↔ (rl.ok = true ∧ rd.ok = true)) ∧
      ((rl.ok = true ∧ rd.ok = true) →
        r.success = rr.success + 1 ∧ r.failed = rr.failed) ∧
      (¬(rl.ok = true ∧ rd.ok = true) →
        r.failed = rr.failed + 1 ∧ r.success = rr.success) ∧
      (rl.ok = true → (List.lookup (outPath e.key "-light") r.fs).isSome = true) := by
  obtain ⟨rl, rd, rr, hl, hd, hr, rfl⟩ :=
    runIcons_themed_inv icons net fuel e rest fs r hT h
  refine ⟨rl, rd, rr, hl, hd, hr, ?_, ?_, ?_, ?_⟩
  · cases hb : rl.ok && rd.ok with
    | true =>
      have hb2 := hb
      simp only [Bool.and_eq_true] at hb2
      simp only [hb]
      exact iff_of_true (by simp [Nat.add_comm]) hb2
    | false =>
      simp only [hb]
      refine iff_of_false (by simp) ?_
      rintro ⟨h1, h2⟩
      rw [h1, h2] at hb
      exact absurd hb (by simp)
  · rintro ⟨h1, h2⟩
    have hb : (rl.ok && rd.ok) = true := by rw [h1, h2]; rfl
    simp [hb, Nat.add_comm]
  · intro hnot
    have hb : (rl.ok && rd.ok) = false := by
      cases h1 : rl.ok with
      | false => rfl
      | true =>
        cases h2 : rd.ok with
        | false => rfl
        | true => exact absurd ⟨h1, h2⟩ hnot
    simp [hb, Nat.add_comm]
  · intro hlo
    obtain ⟨v, hv⟩ := Option.isSome_iff_exists.mp
      (dl_ok_exists icons net fuel fs e.key "-light" rl hl hlo)
    have hv2 := run_mono icons net fuel rest rd.fs rr hr _ v
      (dl_mono icons net fuel rl.fs e.key "-dark" rd hd _ v hv)
    simp [hv2]

/-- Witness for C3 on a concrete themed run where both variants fail. -/
theorem claim_C3_witness :
    ∃ rl rd rr,
      downloadIcon iconsT net404 1 [] "t" "-light" = some rl ∧
      downloadIcon iconsT net404 1 rl.fs "t" "-dark" = some rd ∧
      runIcons iconsT net404 1 [] rd.fs = some rr ∧
      (rT.success = rr.success + 1 ↔ (rl.ok = true ∧ rd.ok = true)) ∧
      ((rl.ok = true ∧ rd.ok = true) →
        rT.success = rr.success + 1 ∧ rT.failed = rr.failed) ∧
      (¬(rl.ok = true ∧ rd.ok = true) →
        rT.failed = rr.failed + 1 ∧ rT.success = rr.success) ∧
      (rl.ok = true → (List.lookup (outPath "t" "-light") rT.fs).isSome = true) :=
  claim_C3_themed_all_or_nothing iconsT net404 1 ⟨"t", true, none⟩ [] [] rT rfl
    (by decide)

/-- C4: for a key whose catalog entry declares a (truthy) fallback slug, when
the file is absent, the primary fetch fails and the fallback fetch succeeds,
`downloadIcon` writes exactly the fallback response body to the target path,
reports success via the simpleicons line, and — when that entry is a
non-themed entry at the head of the loop — the driver counts it as exactly
one success. -/
theorem claim_C4_fallback_success (icons : List Icon) (net : Net) (fuel : Nat)
    (fs : FS) (k slug body : String) (icon : Icon)
    (hfind : List.find? (fun i => i.key == k) icons = some icon)
    (hslug : icon.simpleIconsSlug = some slug) (hsne : slug ≠ "")
    (hex : List.lookup (outPath k "") fs = none)
    (hp : downloadFuel net fuel (primaryUrl k "") = some DlResult.err)
    (hf : downloadFuel net fuel (fallbackUrl slug) = some (DlResult.ok body)) :
    downloadIcon icons net fuel fs k "" =
      some ⟨true, writeFileSync fs (outPath k "") body,
            ["✓ " ++ filenameOf k "" ++ " (simpleicons)"],
            [primaryUrl k "", fallbackUrl slug]⟩ ∧
    List.lookup (outPath k "") (writeFileSync fs (outPath k "") body) = some body ∧
    (∀ (rest : List Icon) (rr : RunResult), icon.hasTheme = false → icon.key = k →
      runIcons icons net fuel rest (writeFileSync fs (outPath k "") body) = some rr →
      ∃ r, runIcons icons net fuel (icon :: rest) fs = some r ∧
        r.success = rr.success + 1 ∧ r.failed = rr.failed) := by
  have hb := dl_build_fb icons net fuel fs k icon slug hex hp hfind hslug hsne
  rw [hf] at hb
  refine ⟨hb, lookup_write_self fs _ body, ?_⟩
  intro rest rr hTheme hkey hrun
  have hb2 : downloadIcon icons net fuel fs icon.key "" =
      some ⟨true, writeFileSync fs (outPath k "") body,
            ["✓ " ++ filenameOf k "" ++ " (simpleicons)"],
            [primaryUrl k "", fallbackUrl slug]⟩ := by
    rw [hkey]; exact hb
  have heq := runIcons_plain_eq icons net fuel icon rest fs
    ⟨true, writeFileSync fs (outPath k "") body,
     ["✓ " ++ filenameOf k "" ++ " (simpleicons)"],
     [primaryUrl k "", fallbackUrl slug]⟩ rr hTheme hb2 hrun
  exact ⟨_, heq, by simp [Nat.add_comm], by simp⟩

/-- Witness for C4 on a concrete catalog and network where only the
fallback succeeds. -/
theorem claim_C4_witness :
    downloadIcon iconsFb netFb 1 [] "b" "" =
      some ⟨true, writeFileSync [] (outPath "b" "") "FBBODY",
            ["✓ " ++ filenameOf "b" "" ++ " (simpleicons)"],
            [primaryUrl "b" "", fallbackUrl "s"]⟩ ∧
    List.lookup (outPath "b" "") (writeFileSync [] (outPath "b" "") "FBBODY") =
      some "FBBODY" ∧
    (∀ (rest : List Icon) (rr : RunResult),
      Icon.hasTheme ⟨"b", false, some "s"⟩ = false →
      Icon.key ⟨"b", false, some "s"⟩ = "b" →
      runIcons iconsFb netFb 1 rest (writeFileSync [] (outPath "b" "") "FBBODY") = some rr →
      ∃ r, runIcons iconsFb netFb 1 (⟨"b", false, some "s"⟩ :: rest) [] = some r ∧
        r.success = rr.success + 1 ∧ r.failed = rr.failed) :=
  claim_C4_fallback_success iconsFb netFb 1 [] "b" "s" "FBBODY" ⟨"b", false, some "s"⟩
    (by decide) rfl (by decide) (by decide) (by decide) (by decide)

theorem downloadFuel_succ (net : Net) (fuel : Nat) (url : String) :
    downloadFuel net (fuel + 1) url =
      match net url with
      | none => some DlResult.err
      | some response =>
        if 300 ≤ response.statusCode ∧ response.statusCode < 400 ∧
            strTruthy response.location = true then
          downloadFuel net fuel (response.location.getD "")
        else if response.statusCode ≠ 200 then some DlResult.err
        else some (DlResult.ok response.body) := by
  rw [downloadFuel]

theorem finalResp_succ (net : Net) (fuel : Nat) (url : String) :
    finalResp net (fuel + 1) url =
      match net url with
      | none => some none
      | some response =>
        if 300 ≤ response.statusCode ∧ response.statusCode < 400 ∧
            strTruthy response.location = true then
          finalResp net fuel (response.location.getD "")
        else some (some response) := by
  rw [finalResp]

/-- C5: the fetch primitive follows any response with status in [300,400)
and a truthy `Location` header by recursively fetching that location with
the same primitive and one less fuel (so chains of any depth are followed,
fuel permitting); a redirect whose target answers 200 yields the target's
body; and a self-redirect loop never resolves at any fuel (no depth limit or
cycle detection — the recursion diverges). -/
theorem claim_C5_redirects :
    (∀ (net : Net) (fuel : Nat) (url : String) (r : Response),
      net url = some r → 300 ≤ r.statusCode → r.statusCode < 400 →
      strTruthy r.location = true →
      downloadFuel net (fuel + 1) url = downloadFuel net fuel (r.location.getD "")) ∧
    (∀ (net : Net) (url1 url2 b1 b2 : String) (st : Nat) (loc2 : Option String)
      (fuel : Nat),
      300 ≤ st → st < 400 → url2 ≠ "" →
      net url1 = some ⟨st, some url2, b1⟩ →
      net url2 = some ⟨200, loc2, b2⟩ →
      downloadFuel net (fuel + 2) url1 = some (DlResult.ok b2)) ∧
    (∀ (net : Net) (url : String) (r : Response),
      net url = some r → 300 ≤ r.statusCode → r.statusCode < 400 →
      r.location = some url → url ≠ "" →
      ∀ fuel, downloadFuel net fuel url = none) := by
  refine ⟨?_, ?_, ?_⟩
  · intro net fuel url r hn h3 h4 hloc
    rw [downloadFuel_succ]
    simp only [hn]
    rw [if_pos ⟨h3, h4, hloc⟩]
  · intro net url1 url2 b1 b2 st loc2 fuel h3 h4 hne hn1 hn2
    have hloc : strTruthy (some url2) = true := by simp [strTruthy, hne]
    rw [show fuel + 2 = (fuel + 1) + 1 from rfl, downloadFuel_succ]
    simp only [hn1]
    rw [if_pos ⟨h3, h4, hloc⟩,
        show Option.getD (some url2) "" = url2 from rfl, downloadFuel_succ]
    simp only [hn2]
    rfl
  · intro net url r hn h3 h4 hloc hne fuel
    induction fuel with
    | zero => rfl
    | succ n ih =>
      have hl : strTruthy r.location = true := by rw [hloc]; simp [strTruthy, hne]
      rw [downloadFuel_succ]
      simp only [hn]
      rw [if_pos ⟨h3, h4, hl⟩, hloc]
      exact ih

/-- Witness for C5 on a concrete redirect chain and a concrete loop. -/
theorem claim_C5_witness :
    downloadFuel netRedir 2 "urlA" = some (DlResult.ok "BODY-B") ∧
    downloadFuel netRedir 7 "urlLoop" = none :=
  ⟨claim_C5_redirects.2.1 netRedir "urlA" "urlB" "" "BODY-B" 302 none 0
      (by decide) (by decide) (by decide) (by decide) (by decide),
   claim_C5_redirects.2.2 netRedir "urlLoop" ⟨302, some "urlLoop", ""⟩
      (by decide) (by decide) (by decide) (by decide) (by decide) 7⟩

/-- C6: the fetch primitive rejects exactly when the final post-redirect
response has a non-200 status or a transport-level error occurs somewhere
along the chain; it resolves with body `b` exactly when the final response
has status 200 and body `b`; and it fails to terminate within the given fuel
exactly when the redirect chain does. -/
theorem claim_C6_fetch_contract (net : Net) (fuel : Nat) (url : String) :
    (downloadFuel net fuel url = none ↔ finalResp net fuel url = none) ∧
    (downloadFuel net fuel url = some DlResult.err ↔
      (finalResp net fuel url = some none ∨
       ∃ r, finalResp net fuel url = some (some r) ∧ r.statusCode ≠ 200)) ∧
    (∀ b, downloadFuel net fuel url = some (DlResult.ok b) ↔
      ∃ r, finalResp net fuel url = some (some r) ∧ r.statusCode = 200 ∧
        b = r.body) := by
  induction fuel generalizing url with
  | zero =>
    refine ⟨by simp [downloadFuel, finalResp], by simp [downloadFuel, finalResp], ?_⟩
    intro b
    simp [downloadFuel, finalResp]
  | succ n ih =>
    cases hn : net url with
    | none =>
      refine ⟨?_, ?_, ?_⟩
      · simp [downloadFuel, finalResp, hn]
      · simp [downloadFuel, finalResp, hn]
      · intro b; simp [downloadFuel, finalResp, hn]
    | some r =>
      by_cases hred : 300 ≤ r.statusCode ∧ r.statusCode < 400 ∧
          strTruthy r.location = true
      · have e1 : downloadFuel net (n + 1) url =
            downloadFuel net n (r.location.getD "") := by
          rw [downloadFuel_succ]; simp only [hn]; rw [if_pos hred]
        have e2 : finalResp net (n + 1) url =
            finalResp net n (r.location.getD "") := by
          rw [finalResp_succ]; simp only [hn]; rw [if_pos hred]
        rw [e1, e2]
        exact ih (r.location.getD "")
      · by_cases h200 : r.statusCode = 200
        · have e1 : downloadFuel net (n + 1) url = some (DlResult.ok r.body) := by
            rw [downloadFuel_succ]; simp only [hn]
            rw [if_neg hred, if_neg (not_not_intro h200)]
          have e2 : finalResp net (n + 1) url = some (some r) := by
            rw [finalResp_succ]; simp only [hn]; rw [if_neg hred]
          rw [e1, e2]
          refine ⟨by simp, by simp [h200], ?_⟩
          intro b
          simp [h200, eq_comm]
        · have e1 : downloadFuel net (n + 1) url = some DlResult.err := by
            rw [downloadFuel_succ]; simp only [hn]
            rw [if_neg hred, if_pos h200]
          have e2 : finalResp net (n + 1) url = some (some r) := by
            rw [finalResp_succ]; simp only [hn]; rw [if_neg hred]
          rw [e1, e2]
          refine ⟨by simp, by simp [h200], ?_⟩
          intro b
          simp [h200]

/-- Witness for C6 at a concrete redirect chain ending in HTTP 200. -/
theorem claim_C6_witness :
    downloadFuel netRedir 2 "urlA" = some (DlResult.ok "BODY-B") ↔
      ∃ r, finalResp netRedir 2 "urlA" = some (some r) ∧ r.statusCode = 200 ∧
        "BODY-B" = r.body :=
  (claim_C6_fetch_contract netRedir 2 "urlA").2.2 "BODY-B"

/-- C8: the progress lines the driver prints are exactly one line per target
file, in catalog order, with the light variant's line before the dark
variant's line for every themed entry. -/
theorem claim_C8_progress_order (icons : List Icon) (net : Net) (fuel : Nat)
    (l : List Icon) :
    ∀ (fs : FS) (r : RunResult), runIcons icons net fuel l fs = some r →
    linesMatch (targetFiles l) r.log = true := by
  induction l with
  | nil =>
    intro fs r h
    rw [runIcons_nil] at h
    obtain rfl := Option.some_inj.mp h
    rfl
  | cons e rest ih =>
    intro fs r h
    cases hT : e.hasTheme with
    | true =>
      obtain ⟨rl, rd, rr, hl, hd, hr, rfl⟩ :=
        runIcons_themed_inv icons net fuel e rest fs r hT h
      obtain ⟨l1, hl1, hf1⟩ := dl_log icons net fuel fs e.key "-light" rl hl
      obtain ⟨l2, hl2, hf2⟩ := dl_log icons net fuel rl.fs e.key "-dark" rd hd
      have hrec := ih rd.fs rr hr
      simp [targetFiles, hT, linesMatch, hl1, hl2, hf1, hf2, hrec]
    | false =>
      obtain ⟨ra, rr, ha, hr, rfl⟩ :=
        runIcons_plain_inv icons net fuel e rest fs r hT h
      obtain ⟨l1, hl1, hf1⟩ := dl_log icons net fuel fs e.key "" ra ha
      have hrec := ih ra.fs rr hr
      simp [targetFiles, hT, linesMatch, hl1, hf1, hrec]

/-- Witness for C8 on a concrete themed run. -/
theorem claim_C8_witness : linesMatch (targetFiles iconsT) rT.log = true :=
  claim_C8_progress_order iconsT net404 1 iconsT [] rT (by decide)

/-- C7 (amended): the driver never deletes or overwrites an existing file
(every pre-existing binding survives a run with its content intact); a
second run over the filesystem a first run produced leaves the file set
exactly unchanged; and when the first run reported zero failures, the second
run additionally performs zero network requests and reports the same counts.
(The unconditional "zero network requests on the second run" of the original
claim fails when the first run had failures; see the counterexample.) -/
theorem claim_C7_idempotence :
    (∀ (icons : List Icon) (net : Net) (fuel : Nat) (l : List Icon) (fs : FS)
      (r : RunResult) (p v : String),
      runIcons icons net fuel l fs = some r →
      List.lookup p fs = some v → List.lookup p r.fs = some v) ∧
    (∀ (icons : List Icon) (net : Net) (fuel : Nat) (l : List Icon) (fs : FS)
      (r1 : RunResult),
      runIcons icons net fuel l fs = some r1 →
      ∃ r2, runIcons icons net fuel l r1.fs = some r2 ∧ r2.fs = r1.fs) ∧
    (∀ (icons : List Icon) (net : Net) (fuel : Nat) (l : List Icon) (fs : FS)
      (r1 : RunResult),
      runIcons icons net fuel l fs = some r1 → r1.failed = 0 →
      ∃ r2, runIcons icons net fuel l r1.fs = some r2 ∧ r2.fs = r1.fs ∧
        r2.reqs = [] ∧ r2.success = r1.success ∧ r2.failed = 0) :=
  ⟨fun icons net fuel l fs r p v h hp => run_mono icons net fuel l fs r h p v hp,
   fun icons net fuel l fs r1 h => run_second_fs icons net fuel l fs r1 h,
   fun icons net fuel l fs r1 h hf => run_second_noreq icons net fuel l fs r1 h hf⟩

/-- Witness for C7 (amended) on a concrete one-entry run with no failures:
the second run exists, changes nothing, and performs zero requests. -/
theorem claim_C7_witness :
    runIcons iconsA netOk 1 iconsA [] = some rA ∧
    (∃ r2, runIcons iconsA netOk 1 iconsA rA.fs = some r2 ∧ r2.fs = rA.fs ∧
      r2.reqs = [] ∧ r2.success = rA.success ∧ r2.failed = 0) :=
  ⟨by decide,
   claim_C7_idempotence.2.2 iconsA netOk 1 iconsA [] rA (by decide) (by decide)⟩

/-- Counterexample to C7 as stated: against a reachable network that answers
HTTP 404 everywhere, the program's own catalog completes a first run, yet
the second run — every target still missing — issues network requests, so
the second run does not perform "zero network requests". -/
theorem claim_C7_counterexample :
    firstRun404.isSome = true ∧ secondRun404.isSome = true ∧
    (reqsOf secondRun404).isEmpty = false := by
  refine ⟨by decide, ?_, ?_⟩
  · decide
  · decide
